import Mathlib

/-
  Shallow embedding of the express-playground library-catalog controllers:
  src/controllers/genreController.js, src/controllers/authorController.js
  (which also holds the Book controller and the catalog index handler),
  src/controllers/bookInstanceController.js, together with the model files
  src/models/bookinstance.js and the Genre model.

  Conventions of the embedding:
  - Mongo document identifiers are opaque strings (`Id := String`); the store
    assigns a fresh identifier at save time via a running counter rendered in
    decimal, mirroring "an opaque, globally-unique identifier assigned by the
    store on creation".
  - Each Express handler becomes a pure function from the current store state
    and the request's inputs (path id, parsed body) to the response it commits
    together with the resulting store state.  Where a handler misses a
    `return` after `res.redirect` (the delete handlers), the committed
    response is the first one issued, and any store side effect the fallthrough
    still performs is kept.
  - express-validator chains become explicit sanitizers (trim, escape,
    toDate) and per-field error lists collected in chain order.
-/

namespace LocalLibrary

abbrev Id := String

/-! ### Sanitizers (validator.js trim / escape / toDate building blocks) -/

/-- Whitespace recognized by trimming (models JS String.prototype.trim on the
ASCII whitespace the submissions use). -/
def isWS (c : Char) : Bool :=
  c == ' ' || c == Char.ofNat 9 || c == Char.ofNat 10 || c == Char.ofNat 13

def trimChars (l : List Char) : List Char :=
  ((l.dropWhile isWS).reverse.dropWhile isWS).reverse

def trimStr (s : String) : String := String.mk (trimChars s.toList)

/-- validator.js `escape`: each markup-significant character is replaced by its
HTML entity; all other characters pass through. -/
def escapeChar (c : Char) : String :=
  if c == Char.ofNat 38 then "&amp;"
  else if c == Char.ofNat 34 then "&quot;"
  else if c == Char.ofNat 39 then "&#x27;"
  else if c == Char.ofNat 60 then "&lt;"
  else if c == Char.ofNat 62 then "&gt;"
  else if c == Char.ofNat 47 then "&#x2F;"
  else if c == Char.ofNat 92 then "&#x5C;"
  else if c == Char.ofNat 96 then "&#96;"
  else String.singleton c

def escapeStr (s : String) : String := String.join (s.toList.map escapeChar)

/-- The composite `.trim().escape()` sanitization every text field receives. -/
def sanitize (raw : String) : String := escapeStr (trimStr raw)

def lowerStr (s : String) : String := String.mk (s.toList.map Char.toLower)

/-- validator.js `isAlphanumeric` (en-US locale): one or more ASCII
letters/digits; the empty string does not match. -/
def isAlphanumericStr (v : String) : Bool :=
  v.length > 0 && v.toList.all Char.isAlphanum

/-- Calendar-date core of validator.js `isISO8601`: YYYY-MM-DD with month in
1..12 and day in 1..31.  The claims are parametric in the exact date grammar;
this decidable core is enough to exercise valid and invalid date submissions. -/
def isISO8601 (v : String) : Bool :=
  match v.toList with
  | [y1, y2, y3, y4, h1, m1, m2, h2, d1, d2] =>
      y1.isDigit && y2.isDigit && y3.isDigit && y4.isDigit &&
      h1 == '-' && h2 == '-' &&
      m1.isDigit && m2.isDigit && d1.isDigit && d2.isDigit &&
      (Nat.ble 1 ((m1.toNat - 48) * 10 + (m2.toNat - 48)) &&
       Nat.ble ((m1.toNat - 48) * 10 + (m2.toNat - 48)) 12) &&
      (Nat.ble 1 ((d1.toNat - 48) * 10 + (d2.toNat - 48)) &&
       Nat.ble ((d1.toNat - 48) * 10 + (d2.toNat - 48)) 31)
  | _ => false

/-- `.optional({ values: "falsy" }).isISO8601()`: absent/empty dates raise no
error; present dates that fail to parse contribute the chain's message. -/
def dateErrors (msg : String) (raw : Option String) : List String :=
  match raw with
  | none => []
  | some v => if v == "" then [] else if isISO8601 v then [] else [msg]

/-- `.toDate()` after the optional ISO check: falsy stays absent, an invalid
date sanitizes to null, a valid one is kept. -/
def dateValue (raw : Option String) : Option String :=
  match raw with
  | none => none
  | some v => if v == "" then none else if isISO8601 v then none else some v

/-- `.trim().isLength({ min: 1 })` with the chain's message. -/
def req1Error (msg raw : String) : List String :=
  if (trimStr raw).length ≥ 1 then [] else [msg]

/-- An Author name field: trim, isLength(min 1) with "... must be specified.",
escape, isAlphanumeric with "... has non-alphanumeric characters.".  Both
validators run, so both errors can be collected; the alphanumeric check sees
the escaped value because escape runs before it in the chain. -/
def nameErrors (field raw : String) : List String :=
  (if (trimStr raw).length ≥ 1 then [] else [field ++ " must be specified."]) ++
  (if isAlphanumericStr (sanitize raw) then [] else
    [field ++ " has non-alphanumeric characters."])

/-! ### Submissions (parsed request bodies) -/

structure AuthorSubmission where
  first_name : String
  family_name : String
  date_of_birth : Option String
  date_of_death : Option String
deriving DecidableEq

/-- The raw shape of the Book form's genre field before the normalization
middleware runs: absent, a single scalar, or an array. -/
inductive GenreField where
  | absent
  | one (v : String)
  | many (vs : List String)
deriving DecidableEq

structure BookSubmission where
  title : String
  author : String
  summary : String
  isbn : String
  genre : GenreField
deriving DecidableEq

structure BISubmission where
  book : String
  imprint : String
  status : Option String
  due_back : Option String
deriving DecidableEq

/-- The normalization middleware at the head of book_create_post and
book_update_post: absent becomes the empty array, a scalar becomes a
one-element array, an array is kept. -/
def normalizeGenre : GenreField → List String
  | GenreField.absent => []
  | GenreField.one v => [v]
  | GenreField.many vs => vs

/-! ### Per-controller validation error aggregation (errors.array()) -/

def genreErrors (rawName : String) : List String :=
  if (trimStr rawName).length ≥ 3 then []
  else ["Genre name must contain at least 3 characters"]

def authorErrors (sub : AuthorSubmission) : List String :=
  nameErrors "First name" sub.first_name ++
  nameErrors "Family name" sub.family_name ++
  dateErrors "Invalid date of birth" sub.date_of_birth ++
  dateErrors "Invalid date of death" sub.date_of_death

def bookErrors (sub : BookSubmission) : List String :=
  req1Error "Title must not be empty." sub.title ++
  req1Error "Author must not be empty." sub.author ++
  req1Error "Summary must not be empty." sub.summary ++
  req1Error "ISBN must not be empty" sub.isbn

def biErrors (sub : BISubmission) : List String :=
  req1Error "Book must be specified" sub.book ++
  req1Error "Imprint must be specified" sub.imprint ++
  dateErrors "Invalid date" sub.due_back

/-! ### Stored documents and candidate (unsaved) entities -/

structure GenreDoc where
  id : Id
  name : String
deriving DecidableEq

structure AuthorDoc where
  id : Id
  first_name : String
  family_name : String
  date_of_birth : Option String
  date_of_death : Option String
deriving DecidableEq

structure BookDoc where
  id : Id
  title : String
  author : Id
  summary : String
  isbn : String
  genre : List Id
deriving DecidableEq

structure BIDoc where
  id : Id
  book : Id
  imprint : String
  status : String
  due_back : Option String
deriving DecidableEq

/-- Candidate entities built from sanitized submissions (`new Model({...})`).
`id` is `some` exactly when the handler passes the old `_id` (update posts). -/
structure GenreCand where
  id : Option Id
  name : String
deriving DecidableEq

structure AuthorCand where
  id : Option Id
  first_name : String
  family_name : String
  date_of_birth : Option String
  date_of_death : Option String
deriving DecidableEq

structure BookCand where
  id : Option Id
  title : String
  author : Id
  summary : String
  isbn : String
  genre : List Id
deriving DecidableEq

structure BICand where
  id : Option Id
  book : Id
  imprint : String
  status : Option String
  due_back : Option String
deriving DecidableEq

def genreCand (oid : Option Id) (rawName : String) : GenreCand :=
  { id := oid, name := sanitize rawName }

def authorCand (oid : Option Id) (sub : AuthorSubmission) : AuthorCand :=
  { id := oid
    first_name := sanitize sub.first_name
    family_name := sanitize sub.family_name
    date_of_birth := dateValue sub.date_of_birth
    date_of_death := dateValue sub.date_of_death }

def bookCand (oid : Option Id) (sub : BookSubmission) : BookCand :=
  { id := oid
    title := sanitize sub.title
    author := sanitize sub.author
    summary := sanitize sub.summary
    isbn := sanitize sub.isbn
    genre := (normalizeGenre sub.genre).map escapeStr }

def biCand (oid : Option Id) (sub : BISubmission) : BICand :=
  { id := oid
    book := sanitize sub.book
    imprint := sanitize sub.imprint
    status := sub.status.map escapeStr
    due_back := dateValue sub.due_back }

/-! ### The store -/

structure StoreState where
  books : List BookDoc
  authors : List AuthorDoc
  genres : List GenreDoc
  bookinstances : List BIDoc
  nextId : Nat
deriving DecidableEq

def digitChar (n : Nat) : Char := Char.ofNat (48 + n % 10)

def natDecAux : Nat → Nat → List Char
  | 0, _ => []
  | fuel + 1, n => if n < 10 then [digitChar n] else natDecAux fuel (n / 10) ++ [digitChar n]

/-- Decimal rendering of the store's id counter (a concrete opaque id). -/
def natToId (n : Nat) : String := String.mk (natDecAux (n + 1) n)

def freshId (s : StoreState) : Id := natToId s.nextId

def findGenre (s : StoreState) (i : Id) : Option GenreDoc :=
  s.genres.find? (fun g => g.id == i)

def findAuthor (s : StoreState) (i : Id) : Option AuthorDoc :=
  s.authors.find? (fun a => a.id == i)

def findBook (s : StoreState) (i : Id) : Option BookDoc :=
  s.books.find? (fun b => b.id == i)

def findBI (s : StoreState) (i : Id) : Option BIDoc :=
  s.bookinstances.find? (fun x => x.id == i)

/-- `Book.find({ genre: i })`: the books whose genre array contains `i`. -/
def booksWithGenre (s : StoreState) (i : Id) : List BookDoc :=
  s.books.filter (fun b => b.genre.contains i)

/-- `Book.find({ author: i })`. -/
def booksByAuthor (s : StoreState) (i : Id) : List BookDoc :=
  s.books.filter (fun b => b.author == i)

/-- `BookInstance.find({ book: i })`. -/
def instancesOfBook (s : StoreState) (i : Id) : List BIDoc :=
  s.bookinstances.filter (fun x => x.book == i)

/-- `findByIdAndRemove(bodyId)`: removes the first document matching the body
identifier when one was submitted; a missing body field removes nothing. -/
def removeGenreById (s : StoreState) (oid : Option Id) : StoreState :=
  match oid with
  | none => s
  | some j => { s with genres := s.genres.eraseP (fun g => g.id == j) }

def removeAuthorById (s : StoreState) (oid : Option Id) : StoreState :=
  match oid with
  | none => s
  | some j => { s with authors := s.authors.eraseP (fun a => a.id == j) }

def removeBookById (s : StoreState) (oid : Option Id) : StoreState :=
  match oid with
  | none => s
  | some j => { s with books := s.books.eraseP (fun b => b.id == j) }

def removeBIById (s : StoreState) (oid : Option Id) : StoreState :=
  match oid with
  | none => s
  | some j => { s with bookinstances := s.bookinstances.eraseP (fun x => x.id == j) }

/-- `findByIdAndUpdate(i, cand)`: updates the matched document's fields in
place (identifier immutable) and returns the matched document. -/
def genreFindByIdAndUpdate (s : StoreState) (i : Id) (c : GenreCand) :
    Option GenreDoc × StoreState :=
  match findGenre s i with
  | none => (none, s)
  | some g =>
      (some g,
       { s with genres := s.genres.map (fun x => if x.id == i then { x with name := c.name } else x) })

def authorFindByIdAndUpdate (s : StoreState) (i : Id) (c : AuthorCand) :
    Option AuthorDoc × StoreState :=
  match findAuthor s i with
  | none => (none, s)
  | some a =>
      (some a,
       { s with authors := s.authors.map (fun x =>
          if x.id == i then
            { x with first_name := c.first_name, family_name := c.family_name,
                     date_of_birth := c.date_of_birth, date_of_death := c.date_of_death }
          else x) })

def bookFindByIdAndUpdate (s : StoreState) (i : Id) (c : BookCand) :
    Option BookDoc × StoreState :=
  match findBook s i with
  | none => (none, s)
  | some b =>
      (some b,
       { s with books := s.books.map (fun x =>
          if x.id == i then
            { x with title := c.title, author := c.author, summary := c.summary,
                     isbn := c.isbn, genre := c.genre }
          else x) })

def biFindByIdAndUpdate (s : StoreState) (i : Id) (c : BICand) :
    Option BIDoc × StoreState :=
  match findBI s i with
  | none => (none, s)
  | some x0 =>
      (some x0,
       { s with bookinstances := s.bookinstances.map (fun x =>
          if x.id == i then
            { x with book := c.book, imprint := c.imprint,
                     status := (match c.status with | none => x.status | some v => v),
                     due_back := c.due_back }
          else x) })

/-- Saving a new document: the store assigns the fresh identifier. -/
def genreDocOf (s : StoreState) (c : GenreCand) : GenreDoc :=
  { id := freshId s, name := c.name }

def authorDocOf (s : StoreState) (c : AuthorCand) : AuthorDoc :=
  { id := freshId s, first_name := c.first_name, family_name := c.family_name,
    date_of_birth := c.date_of_birth, date_of_death := c.date_of_death }

def bookDocOf (s : StoreState) (c : BookCand) : BookDoc :=
  { id := freshId s, title := c.title, author := c.author, summary := c.summary,
    isbn := c.isbn, genre := c.genre }

/-- BookInstance save applies the schema default `status: "Maintenance"` when
the field is absent (src/models/bookinstance.js). -/
def biDocOf (s : StoreState) (c : BICand) : BIDoc :=
  { id := freshId s, book := c.book, imprint := c.imprint,
    status := (match c.status with | none => "Maintenance" | some v => v),
    due_back := c.due_back }

/-! ### URLs (model virtuals) -/

/-- Genre url virtual (Genre model in src/unnamed/part_000). -/
def genreUrl (i : Id) : String := "/catalog/genre/" ++ i

/-- BookInstance url virtual (src/models/bookinstance.js). -/
def biUrl (i : Id) : String := "/catalog/bookinstance/" ++ i

/-- Modelled from the spec: the Author model file is not under src/, so its
url virtual is taken from the spec's uniform path scheme
GET /catalog/{kind}/{id} (spec section 6). -/
def authorUrl (i : Id) : String := "/catalog/author/" ++ i

/-- Modelled from the spec: the Book model file is not under src/, so its url
virtual is taken from the spec's uniform path scheme GET /catalog/{kind}/{id}
(spec section 6). -/
def bookUrl (i : Id) : String := "/catalog/book/" ++ i

/-! ### Responses

The response a handler commits: a rendered view with its data context, a
redirect, the 404-status error forwarded to `next`, or the request-level
failure when the handler dereferences a null document (`thebook.url` in
book_update_post).  For form views the context carries the reference lists,
the candidate entity and the error list exactly as the source passes them;
`markChecked` reproduces the pre-selection of the candidate's genres
(mongoose array membership is by id value). -/

def markChecked (genres : List GenreDoc) (sel : List Id) : List (GenreDoc × Bool) :=
  genres.map (fun g => (g, sel.contains g.id))

inductive Resp where
  | genreForm (title : String) (candidate : Option GenreCand) (errors : Option (List String))
  | authorForm (title : String) (candidate : Option AuthorCand) (errors : Option (List String))
  | bookForm (title : String) (authors : List AuthorDoc) (genres : List (GenreDoc × Bool))
      (candidate : Option BookCand) (errors : Option (List String))
  | biForm (title : String) (book_list : List BookDoc) (selected : Option Id)
      (candidate : Option BICand) (errors : Option (List String))
  | genreDetailView (g : GenreDoc) (genre_books : List BookDoc)
  | authorDetailView (a : AuthorDoc) (author_books : List BookDoc)
  | bookDetailView (b : BookDoc) (book_instances : List BIDoc)
  | biDetailView (x : BIDoc)
  | genreDeleteView (g : Option GenreDoc) (genre_books : List BookDoc)
  | authorDeleteView (a : Option AuthorDoc) (author_books : List BookDoc)
  | bookDeleteView (b : Option BookDoc) (book_instances : List BIDoc)
  | biDeleteView (x : Option BIDoc)
  | redirect (loc : String)
  | notFound (msg : String)
  | crash
deriving DecidableEq

/-! ### Genre controller (src/controllers/genreController.js) -/

def genre_detail (s : StoreState) (i : Id) : Resp :=
  match findGenre s i with
  | none => Resp.notFound "Genre not found"
  | some g => Resp.genreDetailView g (booksWithGenre s i)

def genre_create_post (s : StoreState) (rawName : String) : Resp × StoreState :=
  let errors := genreErrors rawName
  let genre := genreCand none rawName
  if errors ≠ [] then
    (Resp.genreForm "Create Genre" (some genre) (some errors), s)
  else
    -- case-insensitive findOne (collation strength 2): first match in store order
    match s.genres.find? (fun g => lowerStr g.name == lowerStr genre.name) with
    | some genreExists => (Resp.redirect (genreUrl genreExists.id), s)
    | none =>
        -- new genre saved; the source redirects to the genre list page
        (Resp.redirect "catalog/genres",
         { s with genres := s.genres ++ [genreDocOf s genre], nextId := s.nextId + 1 })

def genre_delete_get (s : StoreState) (i : Id) : Resp :=
  match findGenre s i with
  | none => Resp.redirect "/catalog/genres"
  | some g => Resp.genreDeleteView (some g) (booksWithGenre s i)

def genre_delete_post (s : StoreState) (paramsId : Id) (bodyId : Option Id) :
    Resp × StoreState :=
  let genre := findGenre s paramsId
  let booksInGenre := booksWithGenre s paramsId
  if booksInGenre.length > 0 then
    (Resp.genreDeleteView genre booksInGenre, s)
  else
    (Resp.redirect "/catalog/genres", removeGenreById s bodyId)

def genre_update_get (s : StoreState) (i : Id) : Resp :=
  match findGenre s i with
  | none => Resp.notFound "Genre not found"
  | some g => Resp.genreForm "Update Genre" (some { id := some g.id, name := g.name }) none

def genre_update_post (s : StoreState) (paramsId : Id) (rawName : String) :
    Resp × StoreState :=
  let errors := genreErrors rawName
  let genre := genreCand (some paramsId) rawName
  if errors ≠ [] then
    (Resp.genreForm "Update Genre" (some genre) (some errors), s)
  else
    -- redirect target is genre.url, the candidate's own location
    (Resp.redirect (genreUrl paramsId), (genreFindByIdAndUpdate s paramsId genre).2)

/-! ### Author controller (src/controllers/authorController.js) -/

def author_detail (s : StoreState) (i : Id) : Resp :=
  match findAuthor s i with
  | none => Resp.notFound "Author not found"
  | some a => Resp.authorDetailView a (booksByAuthor s i)

def author_create_post (s : StoreState) (sub : AuthorSubmission) : Resp × StoreState :=
  let errors := authorErrors sub
  let author := authorCand none sub
  if errors ≠ [] then
    (Resp.authorForm "Create Author" (some author) (some errors), s)
  else
    -- author saved; the source redirects to the author list
    (Resp.redirect "/catalog/authors",
     { s with authors := s.authors ++ [authorDocOf s author], nextId := s.nextId + 1 })

def author_delete_get (s : StoreState) (i : Id) : Resp :=
  match findAuthor s i with
  | none => Resp.redirect "/catalog/authors"
  | some a => Resp.authorDeleteView (some a) (booksByAuthor s i)

def author_delete_post (s : StoreState) (paramsId : Id) (bodyAuthorId : Option Id) :
    Resp × StoreState :=
  let author := findAuthor s paramsId
  let allBooksByAuthor := booksByAuthor s paramsId
  if allBooksByAuthor.length > 0 then
    (Resp.authorDeleteView author allBooksByAuthor, s)
  else
    (Resp.redirect "/catalog/authors", removeAuthorById s bodyAuthorId)

def author_update_get (s : StoreState) (i : Id) : Resp :=
  match findAuthor s i with
  | none => Resp.notFound "Author not found"
  | some _ =>
      -- the source renders the form with title and a null error list only
      Resp.authorForm "Update Author" none none

def author_update_post (s : StoreState) (paramsId : Id) (sub : AuthorSubmission) :
    Resp × StoreState :=
  let errors := authorErrors sub
  let author := authorCand (some paramsId) sub
  if errors ≠ [] then
    (Resp.authorForm "Update Author" (some author) (some errors), s)
  else
    -- redirect target is author.url, the candidate's own location
    (Resp.redirect (authorUrl paramsId), (authorFindByIdAndUpdate s paramsId author).2)

/-! ### Book controller (second part of src/controllers/authorController.js) -/

def book_detail (s : StoreState) (i : Id) : Resp :=
  match findBook s i with
  | none => Resp.notFound "Book not found"
  | some b => Resp.bookDetailView b (instancesOfBook s i)

def book_create_post (s : StoreState) (sub : BookSubmission) : Resp × StoreState :=
  let errors := bookErrors sub
  let book := bookCand none sub
  if errors ≠ [] then
    (Resp.bookForm "Create Book" s.authors (markChecked s.genres book.genre)
       (some book) (some errors), s)
  else
    -- book saved with its fresh id; redirect to book.url, the saved book's location
    (Resp.redirect (bookUrl (freshId s)),
     { s with books := s.books ++ [bookDocOf s book], nextId := s.nextId + 1 })

def book_delete_get (s : StoreState) (i : Id) : Resp :=
  match findBook s i with
  | none => Resp.redirect "/catalog/books"
  | some b => Resp.bookDeleteView (some b) (instancesOfBook s i)

def book_delete_post (s : StoreState) (paramsId : Id) (bodyId : Option Id) :
    Resp × StoreState :=
  let bookInstances := instancesOfBook s paramsId
  match findBook s paramsId with
  | none =>
      -- the handler redirects to the list; lacking a return it still falls
      -- through, so the delete branch's store effect happens when no
      -- instances exist, but the committed response stays the redirect
      if bookInstances.length > 0 then
        (Resp.redirect "/catalog/books", s)
      else
        (Resp.redirect "/catalog/books", removeBookById s bodyId)
  | some book =>
      if bookInstances.length > 0 then
        (Resp.bookDeleteView (some book) bookInstances, s)
      else
        (Resp.redirect "/catalog/books", removeBookById s bodyId)

def book_update_get (s : StoreState) (i : Id) : Resp :=
  match findBook s i with
  | none => Resp.notFound "Book not found"
  | some b =>
      Resp.bookForm "Update Book" s.authors (markChecked s.genres b.genre)
        (some { id := some b.id, title := b.title, author := b.author,
                summary := b.summary, isbn := b.isbn, genre := b.genre }) none

def book_update_post (s : StoreState) (paramsId : Id) (sub : BookSubmission) :
    Resp × StoreState :=
  let errors := bookErrors sub
  let book := bookCand (some paramsId) sub
  if errors ≠ [] then
    (Resp.bookForm "Update Book" s.authors (markChecked s.genres book.genre)
       (some book) (some errors), s)
  else
    match bookFindByIdAndUpdate s paramsId book with
    | (none, s2) =>
        -- thebook is null: reading thebook.url throws and the request fails
        (Resp.crash, s2)
    | (some thebook, s2) =>
        -- redirect to thebook.url, the document returned by the update call
        (Resp.redirect (bookUrl thebook.id), s2)

/-! ### BookInstance controller (src/controllers/bookInstanceController.js) -/

def bookinstance_detail (s : StoreState) (i : Id) : Resp :=
  match findBI s i with
  | none => Resp.notFound "Book copy not found"
  | some x => Resp.biDetailView x

def bookinstance_create_post (s : StoreState) (sub : BISubmission) : Resp × StoreState :=
  let errors := biErrors sub
  let bookInstance := biCand none sub
  if errors ≠ [] then
    (Resp.biForm "Create BookInstance" s.books (some bookInstance.book)
       (some bookInstance) (some errors), s)
  else
    -- instance saved with its fresh id; redirect to bookInstance.url
    (Resp.redirect (biUrl (freshId s)),
     { s with bookinstances := s.bookinstances ++ [biDocOf s bookInstance],
              nextId := s.nextId + 1 })

def bookinstance_delete_get (s : StoreState) (i : Id) : Resp :=
  match findBI s i with
  | none => Resp.redirect "/catalog/bookinstances"
  | some x => Resp.biDeleteView (some x)

def bookinstance_delete_post (s : StoreState) (_paramsId : Id) (bodyId : Option Id) :
    Resp × StoreState :=
  (Resp.redirect "/catalog/bookinstances", removeBIById s bodyId)

def bookinstance_update_get (s : StoreState) (i : Id) : Resp :=
  match findBI s i with
  | none => Resp.notFound "Book copy not found"
  | some x =>
      Resp.biForm "Update BookInstance" s.books (some x.book)
        (some { id := some x.id, book := x.book, imprint := x.imprint,
                status := some x.status, due_back := x.due_back }) none

def bookinstance_update_post (s : StoreState) (paramsId : Id) (sub : BISubmission) :
    Resp × StoreState :=
  let errors := biErrors sub
  let bookInstance := biCand (some paramsId) sub
  if errors ≠ [] then
    (Resp.biForm "Update BookInstance" s.books (some bookInstance.book)
       (some bookInstance) (some errors), s)
  else
    -- redirect target is bookInstance.url, the candidate's own location
    (Resp.redirect (biUrl paramsId), (biFindByIdAndUpdate s paramsId bookInstance).2)

/-! ### Catalog home page (index handler in authorController.js part 2) -/

structure IndexCounts where
  book_count : Nat
  book_instance_count : Nat
  book_instance_available_count : Nat
  author_count : Nat
  genre_count : Nat
deriving DecidableEq

def index (s : StoreState) : IndexCounts :=
  { book_count := s.books.length
    book_instance_count := s.bookinstances.length
    book_instance_available_count :=
      (s.bookinstances.filter (fun x => x.status == "Available")).length
    author_count := s.authors.length
    -- the source's fifth parallel query is Author.countDocuments, not Genre
    genre_count := s.authors.length }

/-! ### Store well-formedness (referential integrity) -/

/-- Every reference field resolves to a stored document; this reflects the
spec's referential invariant and rules out dangling references. -/
def StoreState.wf (s : StoreState) : Prop :=
  (∀ b ∈ s.books,
     (∃ a ∈ s.authors, a.id = b.author) ∧ ∀ gid ∈ b.genre, ∃ g ∈ s.genres, g.id = gid) ∧
  (∀ x ∈ s.bookinstances, ∃ b ∈ s.books, b.id = x.book)

instance (s : StoreState) : Decidable s.wf := by
  unfold StoreState.wf
  infer_instance

/-! ### Concrete fixtures used by witnesses and counterexamples -/

def st0 : StoreState :=
  { books := [], authors := [], genres := [], bookinstances := [], nextId := 0 }

def aJane : AuthorDoc :=
  { id := "a1", first_name := "Jane", family_name := "Austen",
    date_of_birth := none, date_of_death := none }

def gFantasy : GenreDoc := { id := "g1", name := "Fantasy" }

def bDemo : BookDoc :=
  { id := "b1", title := "Emma", author := "a1", summary := "A novel", isbn := "123",
    genre := ["g1"] }

def iDemo : BIDoc :=
  { id := "i1", book := "b1", imprint := "First", status := "Available", due_back := none }

/-- A small referentially intact store: one author with one book in one genre,
and one instance of that book. -/
def sBig : StoreState :=
  { books := [bDemo], authors := [aJane], genres := [gFantasy],
    bookinstances := [iDemo], nextId := 9 }

/-! ### Claim theorems -/

/-- C1: for every create-submit and update-submit of any entity kind (Book,
Author, Genre, BookInstance), if validation of the submission produces at
least one field error, then no document is written (the store is unchanged),
the failure is not surfaced as an HTTP-level error, and the originating form
is re-rendered with the full error list and the sanitized-but-unsaved
candidate entity. -/
theorem c1_validation_failure_renders_form :
    (∀ s raw, genreErrors raw ≠ [] →
       genre_create_post s raw =
         (Resp.genreForm "Create Genre" (some (genreCand none raw))
            (some (genreErrors raw)), s)) ∧
    (∀ s i raw, genreErrors raw ≠ [] →
       genre_update_post s i raw =
         (Resp.genreForm "Update Genre" (some (genreCand (some i) raw))
            (some (genreErrors raw)), s)) ∧
    (∀ s sub, authorErrors sub ≠ [] →
       author_create_post s sub =
         (Resp.authorForm "Create Author" (some (authorCand none sub))
            (some (authorErrors sub)), s)) ∧
    (∀ s i sub, authorErrors sub ≠ [] →
       author_update_post s i sub =
         (Resp.authorForm "Update Author" (some (authorCand (some i) sub))
            (some (authorErrors sub)), s)) ∧
    (∀ s sub, bookErrors sub ≠ [] →
       book_create_post s sub =
         (Resp.bookForm "Create Book" s.authors
            (markChecked s.genres (bookCand none sub).genre)
            (some (bookCand none sub)) (some (bookErrors sub)), s)) ∧
    (∀ s i sub, bookErrors sub ≠ [] →
       book_update_post s i sub =
         (Resp.bookForm "Update Book" s.authors
            (markChecked s.genres (bookCand (some i) sub).genre)
            (some (bookCand (some i) sub)) (some (bookErrors sub)), s)) ∧
    (∀ s sub, biErrors sub ≠ [] →
       bookinstance_create_post s sub =
         (Resp.biForm "Create BookInstance" s.books (some (biCand none sub).book)
            (some (biCand none sub)) (some (biErrors sub)), s)) ∧
    (∀ s i sub, biErrors sub ≠ [] →
       bookinstance_update_post s i sub =
         (Resp.biForm "Update BookInstance" s.books (some (biCand (some i) sub).book)
            (some (biCand (some i) sub)) (some (biErrors sub)), s)) := by
  refine ⟨?_, ?_, ?_, ?_, ?_, ?_, ?_, ?_⟩
  · intro s raw h
    simp only [genre_create_post]
    rw [if_pos h]
  · intro s i raw h
    simp only [genre_update_post]
    rw [if_pos h]
  · intro s sub h
    simp only [author_create_post]
    rw [if_pos h]
  · intro s i sub h
    simp only [author_update_post]
    rw [if_pos h]
  · intro s sub h
    simp only [book_create_post]
    rw [if_pos h]
  · intro s i sub h
    simp only [book_update_post]
    rw [if_pos h]
  · intro s sub h
    simp only [bookinstance_create_post]
    rw [if_pos h]
  · intro s i sub h
    simp only [bookinstance_update_post]
    rw [if_pos h]

def subNoFirst : AuthorSubmission :=
  { first_name := "", family_name := "Austen", date_of_birth := none, date_of_death := none }

def subNoTitle : BookSubmission :=
  { title := "", author := "a1", summary := "A novel", isbn := "123",
    genre := GenreField.absent }

def subBadDate : BISubmission :=
  { book := "b1", imprint := "First", status := none, due_back := some "not-a-date" }

/-- C1 witness: on concrete invalid submissions of each kind the store is
untouched and the form re-renders with the errors and the candidate. -/
theorem c1_validation_failure_renders_form_witness :
    genreErrors "ab" ≠ [] ∧
    genre_create_post sBig "ab" =
      (Resp.genreForm "Create Genre" (some (genreCand none "ab"))
         (some (genreErrors "ab")), sBig) ∧
    genre_update_post sBig "g1" "ab" =
      (Resp.genreForm "Update Genre" (some (genreCand (some "g1") "ab"))
         (some (genreErrors "ab")), sBig) ∧
    authorErrors subNoFirst ≠ [] ∧
    author_create_post sBig subNoFirst =
      (Resp.authorForm "Create Author" (some (authorCand none subNoFirst))
         (some (authorErrors subNoFirst)), sBig) ∧
    author_update_post sBig "a1" subNoFirst =
      (Resp.authorForm "Update Author" (some (authorCand (some "a1") subNoFirst))
         (some (authorErrors subNoFirst)), sBig) ∧
    bookErrors subNoTitle ≠ [] ∧
    book_create_post sBig subNoTitle =
      (Resp.bookForm "Create Book" sBig.authors
         (markChecked sBig.genres (bookCand none subNoTitle).genre)
         (some (bookCand none subNoTitle)) (some (bookErrors subNoTitle)), sBig) ∧
    book_update_post sBig "b1" subNoTitle =
      (Resp.bookForm "Update Book" sBig.authors
         (markChecked sBig.genres (bookCand (some "b1") subNoTitle).genre)
         (some (bookCand (some "b1") subNoTitle)) (some (bookErrors subNoTitle)), sBig) ∧
    biErrors subBadDate ≠ [] ∧
    bookinstance_create_post sBig subBadDate =
      (Resp.biForm "Create BookInstance" sBig.books (some (biCand none subBadDate).book)
         (some (biCand none subBadDate)) (some (biErrors subBadDate)), sBig) ∧
    bookinstance_update_post sBig "i1" subBadDate =
      (Resp.biForm "Update BookInstance" sBig.books (some (biCand (some "i1") subBadDate).book)
         (some (biCand (some "i1") subBadDate)) (some (biErrors subBadDate)), sBig) :=
  ⟨by decide,
   c1_validation_failure_renders_form.1 sBig "ab" (by decide),
   (c1_validation_failure_renders_form).2.1 sBig "g1" "ab" (by decide),
   by decide,
   (c1_validation_failure_renders_form).2.2.1 sBig subNoFirst (by decide),
   (c1_validation_failure_renders_form).2.2.2.1 sBig "a1" subNoFirst (by decide),
   by decide,
   (c1_validation_failure_renders_form).2.2.2.2.1 sBig subNoTitle (by decide),
   (c1_validation_failure_renders_form).2.2.2.2.2.1 sBig "b1" subNoTitle (by decide),
   by decide,
   (c1_validation_failure_renders_form).2.2.2.2.2.2.1 sBig subBadDate (by decide),
   (c1_validation_failure_renders_form).2.2.2.2.2.2.2 sBig "i1" subBadDate (by decide)⟩

/-- C10: on the catalog home page the rendered genre_count is computed from
the Author collection: it equals the number of Authors for every store state,
and there is a store where it differs from the number of Genres. -/
theorem c10_home_genre_count_counts_authors :
    (∀ s : StoreState, (index s).genre_count = s.authors.length) ∧
    (∃ s : StoreState, (index s).genre_count ≠ s.genres.length) := by
  constructor
  · intro s
    rfl
  · refine ⟨{ books := [], authors := [], genres := [gFantasy],
              bookinstances := [], nextId := 0 }, ?_⟩
    decide

/-- C2 counterexample: with one BookInstance referencing the Book, the Book
delete-submit is blocked — the store is unchanged, the Book survives, and the
confirmation view is re-rendered — refuting "submitting a Book deletion
succeeds and removes the Book regardless of how many BookInstances still
reference it". -/
theorem c2_counterexample :
    (book_delete_post sBig "b1" (some "b1")).2 = sBig ∧
    bDemo ∈ (book_delete_post sBig "b1" (some "b1")).2.books ∧
    (book_delete_post sBig "b1" (some "b1")).1 =
      Resp.bookDeleteView (some bDemo) [iDemo] := by decide

/-- C2 (amended): Book delete-submit IS guarded by the dependent check: when
at least one BookInstance references the Book the confirmation view is
re-rendered and nothing is removed; only with zero instances is the Book
(named by the body identifier) deleted and the response a list redirect. -/
theorem c2_book_delete_guarded :
    ∀ s i b body, findBook s i = some b →
      (instancesOfBook s i ≠ [] →
         book_delete_post s i body =
           (Resp.bookDeleteView (some b) (instancesOfBook s i), s)) ∧
      (instancesOfBook s i = [] →
         book_delete_post s i body =
           (Resp.redirect "/catalog/books", removeBookById s body)) := by
  intro s i b body hfind
  constructor
  · intro h
    simp only [book_delete_post, hfind]
    rw [if_pos (List.length_pos.mpr h)]
  · intro h
    simp [book_delete_post, hfind, h]

/-- C2 witness: the guard theorem applied to the concrete blocked store. -/
theorem c2_book_delete_guarded_witness :
    book_delete_post sBig "b1" (some "b1") =
      (Resp.bookDeleteView (some bDemo) (instancesOfBook sBig "b1"), sBig) :=
  (c2_book_delete_guarded sBig "b1" bDemo (some "b1") (by decide)).1 (by decide)

/-- C4: for every dependent-bearing entity kind (Genre and Author blocked by
Books, Book blocked by BookInstances; nothing references a BookInstance), a
delete-submit for an existing entity with at least one dependent leaves the
store unchanged (so the kind's document count is unchanged) and re-renders
the confirmation view with the current dependent list. -/
theorem c4_delete_with_dependents_blocked :
    (∀ s i g body, findGenre s i = some g → booksWithGenre s i ≠ [] →
       genre_delete_post s i body =
         (Resp.genreDeleteView (some g) (booksWithGenre s i), s)) ∧
    (∀ s i a body, findAuthor s i = some a → booksByAuthor s i ≠ [] →
       author_delete_post s i body =
         (Resp.authorDeleteView (some a) (booksByAuthor s i), s)) ∧
    (∀ s i b body, findBook s i = some b → instancesOfBook s i ≠ [] →
       book_delete_post s i body =
         (Resp.bookDeleteView (some b) (instancesOfBook s i), s)) := by
  refine ⟨?_, ?_, ?_⟩
  · intro s i g body hfind h
    simp only [genre_delete_post, hfind]
    rw [if_pos (List.length_pos.mpr h)]
  · intro s i a body hfind h
    simp only [author_delete_post, hfind]
    rw [if_pos (List.length_pos.mpr h)]
  · intro s i b body hfind h
    simp only [book_delete_post, hfind]
    rw [if_pos (List.length_pos.mpr h)]

/-- C4 witness: all three guards observed on the concrete store. -/
theorem c4_delete_with_dependents_blocked_witness :
    genre_delete_post sBig "g1" (some "g1") =
      (Resp.genreDeleteView (some gFantasy) (booksWithGenre sBig "g1"), sBig) ∧
    author_delete_post sBig "a1" (some "a1") =
      (Resp.authorDeleteView (some aJane) (booksByAuthor sBig "a1"), sBig) ∧
    book_delete_post sBig "b1" (some "b1") =
      (Resp.bookDeleteView (some bDemo) (instancesOfBook sBig "b1"), sBig) :=
  ⟨c4_delete_with_dependents_blocked.1 sBig "g1" gFantasy (some "g1")
     (by decide) (by decide),
   c4_delete_with_dependents_blocked.2.1 sBig "a1" aJane (some "a1")
     (by decide) (by decide),
   c4_delete_with_dependents_blocked.2.2 sBig "b1" bDemo (some "b1")
     (by decide) (by decide)⟩

def gPoetry : GenreDoc := { id := "g2", name := "Poetry" }

def sTwoGenres : StoreState :=
  { books := [], authors := [], genres := [gFantasy, gPoetry],
    bookinstances := [], nextId := 0 }

/-- C5 counterexample: deletion is addressed by the request BODY identifier,
not the path identifier.  With the path naming g1 (zero dependents) and the
body naming g2, the call leaves g1 in the store and removes g2 instead,
refuting "a delete-submit addressed (by the request path identifier) to an
existing entity with zero dependents removes exactly that one document ...
leaving every other document of every kind unchanged". -/
theorem c5_counterexample :
    findGenre sTwoGenres "g1" = some gFantasy ∧
    booksWithGenre sTwoGenres "g1" = [] ∧
    genre_delete_post sTwoGenres "g1" (some "g2") =
      (Resp.redirect "/catalog/genres", { sTwoGenres with genres := [gFantasy] }) ∧
    gFantasy ∈ (genre_delete_post sTwoGenres "g1" (some "g2")).2.genres ∧
    gPoetry ∉ (genre_delete_post sTwoGenres "g1" (some "g2")).2.genres := by decide

theorem length_eraseP_succ {α : Type} (p : α → Bool) (l : List α) (a : α)
    (h : l.find? p = some a) : (l.eraseP p).length + 1 = l.length := by
  have hm := List.mem_of_find?_eq_some h
  have hp := List.find?_some h
  have hlen := List.length_eraseP_of_mem hm hp
  have hpos : 0 < l.length := List.length_pos.mpr (List.ne_nil_of_mem hm)
  omega

/-- C5 (amended): deletion targets the body identifier; in the normal form
submission where the body identifier equals the path identifier and the
path-addressed entity exists with zero dependents, exactly that one document
(the first with that identifier) is removed and every other document of every
kind is unchanged. -/
theorem c5_delete_zero_dependents_removes_one :
    (∀ s i g, findGenre s i = some g → booksWithGenre s i = [] →
       genre_delete_post s i (some i) =
         (Resp.redirect "/catalog/genres",
          { s with genres := s.genres.eraseP (fun x => x.id == i) }) ∧
       (genre_delete_post s i (some i)).2.genres.length + 1 = s.genres.length) ∧
    (∀ s i a, findAuthor s i = some a → booksByAuthor s i = [] →
       author_delete_post s i (some i) =
         (Resp.redirect "/catalog/authors",
          { s with authors := s.authors.eraseP (fun x => x.id == i) }) ∧
       (author_delete_post s i (some i)).2.authors.length + 1 = s.authors.length) ∧
    (∀ s i b, findBook s i = some b → instancesOfBook s i = [] →
       book_delete_post s i (some i) =
         (Resp.redirect "/catalog/books",
          { s with books := s.books.eraseP (fun x => x.id == i) }) ∧
       (book_delete_post s i (some i)).2.books.length + 1 = s.books.length) ∧
    (∀ s i x, findBI s i = some x →
       bookinstance_delete_post s i (some i) =
         (Resp.redirect "/catalog/bookinstances",
          { s with bookinstances := s.bookinstances.eraseP (fun y => y.id == i) }) ∧
       (bookinstance_delete_post s i (some i)).2.bookinstances.length + 1 =
         s.bookinstances.length) := by
  refine ⟨?_, ?_, ?_, ?_⟩
  · intro s i g hfind h
    have heq : genre_delete_post s i (some i) =
        (Resp.redirect "/catalog/genres",
         { s with genres := s.genres.eraseP (fun x => x.id == i) }) := by
      simp [genre_delete_post, h, removeGenreById]
    exact ⟨heq, by rw [heq]; exact length_eraseP_succ _ _ _ hfind⟩
  · intro s i a hfind h
    have heq : author_delete_post s i (some i) =
        (Resp.redirect "/catalog/authors",
         { s with authors := s.authors.eraseP (fun x => x.id == i) }) := by
      simp [author_delete_post, h, removeAuthorById]
    exact ⟨heq, by rw [heq]; exact length_eraseP_succ _ _ _ hfind⟩
  · intro s i b hfind h
    have heq : book_delete_post s i (some i) =
        (Resp.redirect "/catalog/books",
         { s with books := s.books.eraseP (fun x => x.id == i) }) := by
      simp [book_delete_post, hfind, h, removeBookById]
    exact ⟨heq, by rw [heq]; exact length_eraseP_succ _ _ _ hfind⟩
  · intro s i x hfind
    have heq : bookinstance_delete_post s i (some i) =
        (Resp.redirect "/catalog/bookinstances",
         { s with bookinstances := s.bookinstances.eraseP (fun y => y.id == i) }) := by
      simp only [bookinstance_delete_post, removeBIById]
    exact ⟨heq, by rw [heq]; exact length_eraseP_succ _ _ _ hfind⟩

/-- C5 witness: deleting g2 (zero dependents, body id equal to path id)
removes exactly that document and leaves g1 alone. -/
theorem c5_delete_zero_dependents_removes_one_witness :
    (genre_delete_post sTwoGenres "g2" (some "g2") =
       (Resp.redirect "/catalog/genres",
        { sTwoGenres with genres := sTwoGenres.genres.eraseP (fun x => x.id == "g2") }) ∧
     (genre_delete_post sTwoGenres "g2" (some "g2")).2.genres.length + 1 =
       sTwoGenres.genres.length) :=
  c5_delete_zero_dependents_removes_one.1 sTwoGenres "g2" gPoetry
    (by decide) (by decide)

/-- C3 counterexample: a valid, collision-free Genre create-submit persists
the new Genre but redirects to the genre LIST page ("catalog/genres"), not to
the new Genre's detail location, refuting "redirects to that new entity's
detail location" for every entity kind. -/
theorem c3_counterexample :
    genreErrors "Fantasy" = [] ∧
    (genre_create_post st0 "Fantasy").2.genres = [{ id := "0", name := "Fantasy" }] ∧
    (genre_create_post st0 "Fantasy").1 = Resp.redirect "catalog/genres" ∧
    (genre_create_post st0 "Fantasy").1 ≠ Resp.redirect (genreUrl "0") := by decide

/-- C3 (amended): a create-submit whose validation succeeds (and, for Genre,
has no case-insensitive name collision) persists exactly one new entity; Book
and BookInstance then redirect to the new entity's detail location, while
Genre redirects to the genre list ("catalog/genres") and Author to the author
list ("/catalog/authors"). -/
theorem c3_create_success_persists_one :
    (∀ s raw, genreErrors raw = [] →
       s.genres.find? (fun g => lowerStr g.name == lowerStr (genreCand none raw).name) = none →
       genre_create_post s raw =
         (Resp.redirect "catalog/genres",
          { s with genres := s.genres ++ [genreDocOf s (genreCand none raw)],
                   nextId := s.nextId + 1 })) ∧
    (∀ s sub, authorErrors sub = [] →
       author_create_post s sub =
         (Resp.redirect "/catalog/authors",
          { s with authors := s.authors ++ [authorDocOf s (authorCand none sub)],
                   nextId := s.nextId + 1 })) ∧
    (∀ s sub, bookErrors sub = [] →
       book_create_post s sub =
         (Resp.redirect (bookUrl (freshId s)),
          { s with books := s.books ++ [bookDocOf s (bookCand none sub)],
                   nextId := s.nextId + 1 })) ∧
    (∀ s sub, biErrors sub = [] →
       bookinstance_create_post s sub =
         (Resp.redirect (biUrl (freshId s)),
          { s with bookinstances := s.bookinstances ++ [biDocOf s (biCand none sub)],
                   nextId := s.nextId + 1 })) := by
  refine ⟨?_, ?_, ?_, ?_⟩
  · intro s raw herr hfind
    simp [genre_create_post, herr, hfind]
  · intro s sub herr
    simp [author_create_post, herr]
  · intro s sub herr
    simp [book_create_post, herr]
  · intro s sub herr
    simp [bookinstance_create_post, herr]

def subJane : AuthorSubmission :=
  { first_name := "Jane", family_name := "Austen",
    date_of_birth := none, date_of_death := none }

def subEmma : BookSubmission :=
  { title := "Emma", author := "a1", summary := "A novel", isbn := "123",
    genre := GenreField.many ["g1"] }

def subFirstCopy : BISubmission :=
  { book := "b1", imprint := "First", status := some "Available",
    due_back := some "1990-01-01" }

/-- C3 witness: concrete valid create-submits of all four kinds. -/
theorem c3_create_success_persists_one_witness :
    genre_create_post sBig "Poetry" =
      (Resp.redirect "catalog/genres",
       { sBig with genres := sBig.genres ++ [genreDocOf sBig (genreCand none "Poetry")],
                   nextId := sBig.nextId + 1 }) ∧
    author_create_post sBig subJane =
      (Resp.redirect "/catalog/authors",
       { sBig with authors := sBig.authors ++ [authorDocOf sBig (authorCand none subJane)],
                   nextId := sBig.nextId + 1 }) ∧
    book_create_post sBig subEmma =
      (Resp.redirect (bookUrl (freshId sBig)),
       { sBig with books := sBig.books ++ [bookDocOf sBig (bookCand none subEmma)],
                   nextId := sBig.nextId + 1 }) ∧
    bookinstance_create_post sBig subFirstCopy =
      (Resp.redirect (biUrl (freshId sBig)),
       { sBig with bookinstances := sBig.bookinstances ++ [biDocOf sBig (biCand none subFirstCopy)],
                   nextId := sBig.nextId + 1 }) :=
  ⟨c3_create_success_persists_one.1 sBig "Poetry" (by decide) (by decide),
   c3_create_success_persists_one.2.1 sBig subJane (by decide),
   c3_create_success_persists_one.2.2.1 sBig subEmma (by decide),
   c3_create_success_persists_one.2.2.2 sBig subFirstCopy (by decide)⟩

theorem booksWithGenre_eq_nil_of_absent (s : StoreState) (i : Id) (hwf : s.wf)
    (h : findGenre s i = none) : booksWithGenre s i = [] := by
  unfold booksWithGenre
  rw [List.filter_eq_nil_iff]
  intro b hb hcontains
  have hi : i ∈ b.genre := by simpa using hcontains
  obtain ⟨g, hg, hgid⟩ := (hwf.1 b hb).2 i hi
  have hnone := List.find?_eq_none.mp h g hg
  exact hnone (by simp [hgid])

theorem booksByAuthor_eq_nil_of_absent (s : StoreState) (i : Id) (hwf : s.wf)
    (h : findAuthor s i = none) : booksByAuthor s i = [] := by
  unfold booksByAuthor
  rw [List.filter_eq_nil_iff]
  intro b hb hbeq
  have heq : b.author = i := by simpa using hbeq
  obtain ⟨a, ha, haid⟩ := (hwf.1 b hb).1
  have hnone := List.find?_eq_none.mp h a ha
  exact hnone (by simp [haid, heq])

/-- C6: in a referentially intact store, an identifier with no corresponding
document yields the 404 Not-Found signal from the detail and update-get
operations of all four kinds, while the delete-get and delete-post operations
respond with a redirect to the kind's list view and raise no error. -/
theorem c6_absent_id_policy :
    ∀ s : StoreState, s.wf → ∀ i : Id,
      (findGenre s i = none →
         genre_detail s i = Resp.notFound "Genre not found" ∧
         genre_update_get s i = Resp.notFound "Genre not found" ∧
         genre_delete_get s i = Resp.redirect "/catalog/genres" ∧
         ∀ body, (genre_delete_post s i body).1 = Resp.redirect "/catalog/genres") ∧
      (findAuthor s i = none →
         author_detail s i = Resp.notFound "Author not found" ∧
         author_update_get s i = Resp.notFound "Author not found" ∧
         author_delete_get s i = Resp.redirect "/catalog/authors" ∧
         ∀ body, (author_delete_post s i body).1 = Resp.redirect "/catalog/authors") ∧
      (findBook s i = none →
         book_detail s i = Resp.notFound "Book not found" ∧
         book_update_get s i = Resp.notFound "Book not found" ∧
         book_delete_get s i = Resp.redirect "/catalog/books" ∧
         ∀ body, (book_delete_post s i body).1 = Resp.redirect "/catalog/books") ∧
      (findBI s i = none →
         bookinstance_detail s i = Resp.notFound "Book copy not found" ∧
         bookinstance_update_get s i = Resp.notFound "Book copy not found" ∧
         bookinstance_delete_get s i = Resp.redirect "/catalog/bookinstances" ∧
         ∀ body, (bookinstance_delete_post s i body).1 =
           Resp.redirect "/catalog/bookinstances") := by
  intro s hwf i
  refine ⟨?_, ?_, ?_, ?_⟩
  · intro h
    have hb := booksWithGenre_eq_nil_of_absent s i hwf h
    exact ⟨by simp [genre_detail, h], by simp [genre_update_get, h],
           by simp [genre_delete_get, h],
           fun body => by simp [genre_delete_post, hb]⟩
  · intro h
    have hb := booksByAuthor_eq_nil_of_absent s i hwf h
    exact ⟨by simp [author_detail, h], by simp [author_update_get, h],
           by simp [author_delete_get, h],
           fun body => by simp [author_delete_post, hb]⟩
  · intro h
    refine ⟨by simp [book_detail, h], by simp [book_update_get, h],
            by simp [book_delete_get, h], fun body => ?_⟩
    by_cases hc : (instancesOfBook s i).length > 0 <;>
      simp [book_delete_post, h, hc]
  · intro h
    exact ⟨by simp [bookinstance_detail, h], by simp [bookinstance_update_get, h],
           by simp [bookinstance_delete_get, h],
           fun body => by simp [bookinstance_delete_post]⟩

/-- C6 witness: the policy observed at a concrete absent identifier in the
concrete intact store. -/
theorem c6_absent_id_policy_witness :
    (genre_detail sBig "zz" = Resp.notFound "Genre not found" ∧
     (genre_delete_post sBig "zz" (some "zz")).1 = Resp.redirect "/catalog/genres") ∧
    (author_update_get sBig "zz" = Resp.notFound "Author not found" ∧
     (author_delete_post sBig "zz" (some "zz")).1 = Resp.redirect "/catalog/authors") ∧
    (book_detail sBig "zz" = Resp.notFound "Book not found" ∧
     (book_delete_post sBig "zz" (some "zz")).1 = Resp.redirect "/catalog/books") ∧
    (bookinstance_update_get sBig "zz" = Resp.notFound "Book copy not found" ∧
     bookinstance_delete_get sBig "zz" = Resp.redirect "/catalog/bookinstances") :=
  ⟨⟨((c6_absent_id_policy sBig (by decide) "zz").1 (by decide)).1,
    ((c6_absent_id_policy sBig (by decide) "zz").1 (by decide)).2.2.2 (some "zz")⟩,
   ⟨((c6_absent_id_policy sBig (by decide) "zz").2.1 (by decide)).2.1,
    ((c6_absent_id_policy sBig (by decide) "zz").2.1 (by decide)).2.2.2 (some "zz")⟩,
   ⟨((c6_absent_id_policy sBig (by decide) "zz").2.2.1 (by decide)).1,
    ((c6_absent_id_policy sBig (by decide) "zz").2.2.1 (by decide)).2.2.2 (some "zz")⟩,
   ⟨((c6_absent_id_policy sBig (by decide) "zz").2.2.2 (by decide)).2.1,
    ((c6_absent_id_policy sBig (by decide) "zz").2.2.2 (by decide)).2.2.1⟩⟩

def gAmp : GenreDoc := { id := "g9", name := "a&amp;" }

def sAmp : StoreState :=
  { books := [], authors := [], genres := [gAmp], bookinstances := [], nextId := 3 }

/-- C7 counterexample: the store holds a Genre whose name equals the
submitted trimmed-escaped name (raw "a&" sanitizes to "a&amp;"), yet because
the raw trimmed name has length 2 the validation chain fails first, so the
response is the re-rendered form, not a redirect to the existing Genre's
detail location.  The no-second-document half of the claim still holds. -/
theorem c7_counterexample :
    (genreCand none "a&").name = "a&amp;" ∧
    (∃ g ∈ sAmp.genres, lowerStr g.name = lowerStr (genreCand none "a&").name) ∧
    (genre_create_post sAmp "a&").2 = sAmp ∧
    (genre_create_post sAmp "a&").1 =
      Resp.genreForm "Create Genre" (some (genreCand none "a&"))
        (some (genreErrors "a&")) ∧
    (genre_create_post sAmp "a&").1 ≠ Resp.redirect (genreUrl "g9") := by decide

/-- C7 (amended): whenever the store holds a Genre case-insensitively equal
to the submitted trimmed-escaped name, create-submit never inserts a second
document (the Genre collection is unchanged on every path); and when the
submission additionally passes validation, the response redirects to the
detail location of the first such Genre in store order. -/
theorem c7_genre_collision_never_inserts :
    ∀ s raw,
      (∃ g ∈ s.genres, lowerStr g.name = lowerStr (genreCand none raw).name) →
      (genre_create_post s raw).2.genres = s.genres ∧
      (genreErrors raw = [] →
         ∃ g, s.genres.find?
                (fun x => lowerStr x.name == lowerStr (genreCand none raw).name) = some g ∧
              lowerStr g.name = lowerStr (genreCand none raw).name ∧
              genre_create_post s raw = (Resp.redirect (genreUrl g.id), s)) := by
  intro s raw hex
  have hsome : (s.genres.find?
      (fun x => lowerStr x.name == lowerStr (genreCand none raw).name)).isSome := by
    rw [List.find?_isSome]
    obtain ⟨g, hg, he⟩ := hex
    exact ⟨g, hg, by simp [he]⟩
  obtain ⟨g, hg⟩ := Option.isSome_iff_exists.mp hsome
  constructor
  · by_cases herr : genreErrors raw = []
    · simp [genre_create_post, herr, hg]
    · simp [genre_create_post, herr]
  · intro herr
    refine ⟨g, hg, ?_, ?_⟩
    · simpa using List.find?_some hg
    · simp [genre_create_post, herr, hg]

def gCaps : GenreDoc := { id := "g5", name := "FANTASY" }

def sCaps : StoreState :=
  { books := [], authors := [], genres := [gCaps], bookinstances := [], nextId := 0 }

/-- C7 witness: submitting "Fantasy" against a store holding "FANTASY"
inserts nothing and redirects to the existing Genre's detail location. -/
theorem c7_genre_collision_never_inserts_witness :
    (genre_create_post sCaps "Fantasy").2.genres = sCaps.genres ∧
    (genreErrors "Fantasy" = [] →
       ∃ g, sCaps.genres.find?
              (fun x => lowerStr x.name == lowerStr (genreCand none "Fantasy").name) = some g ∧
            lowerStr g.name = lowerStr (genreCand none "Fantasy").name ∧
            genre_create_post sCaps "Fantasy" = (Resp.redirect (genreUrl g.id), sCaps)) :=
  c7_genre_collision_never_inserts sCaps "Fantasy" (by decide)

/-- C8 counterexample: Genre update-submit with valid data at an identifier
the store does not hold: the persistence call returns no document, yet the
handler still redirects — to the candidate-derived location — so the redirect
target is not "the canonical location of the document returned by the
persistence call".  (Book is the only kind that actually consumes the
returned document, and it crashes in this situation.) -/
theorem c8_counterexample :
    genreErrors "Fantasy" = [] ∧
    (genreFindByIdAndUpdate st0 "7" (genreCand (some "7") "Fantasy")).1 = none ∧
    (genre_update_post st0 "7" "Fantasy").1 = Resp.redirect (genreUrl "7") := by decide

/-- C8 (amended): every kind's update candidate carries the original path
identifier and persistence updates in place (the stored identifier sequence
is unchanged, no insert).  Only Book takes its redirect from the document
returned by the persistence call — and fails when none is returned; Genre,
Author and BookInstance redirect to the candidate-derived location, which
coincides with the persisted document's location whenever it exists. -/
theorem c8_update_in_place :
    (∀ s i raw, genreErrors raw = [] →
       (genreCand (some i) raw).id = some i ∧
       genre_update_post s i raw =
         (Resp.redirect (genreUrl i),
          (genreFindByIdAndUpdate s i (genreCand (some i) raw)).2) ∧
       (genre_update_post s i raw).2.genres.map (fun g => g.id) =
         s.genres.map (fun g => g.id)) ∧
    (∀ s i sub, authorErrors sub = [] →
       (authorCand (some i) sub).id = some i ∧
       author_update_post s i sub =
         (Resp.redirect (authorUrl i),
          (authorFindByIdAndUpdate s i (authorCand (some i) sub)).2) ∧
       (author_update_post s i sub).2.authors.map (fun a => a.id) =
         s.authors.map (fun a => a.id)) ∧
    (∀ s i sub, biErrors sub = [] →
       (biCand (some i) sub).id = some i ∧
       bookinstance_update_post s i sub =
         (Resp.redirect (biUrl i),
          (biFindByIdAndUpdate s i (biCand (some i) sub)).2) ∧
       (bookinstance_update_post s i sub).2.bookinstances.map (fun x => x.id) =
         s.bookinstances.map (fun x => x.id)) ∧
    (∀ s i sub, bookErrors sub = [] →
       (bookCand (some i) sub).id = some i ∧
       (∀ d, findBook s i = some d →
          book_update_post s i sub =
            (Resp.redirect (bookUrl d.id),
             (bookFindByIdAndUpdate s i (bookCand (some i) sub)).2) ∧
          d.id = i) ∧
       (findBook s i = none → (book_update_post s i sub).1 = Resp.crash) ∧
       (book_update_post s i sub).2.books.map (fun b => b.id) =
         s.books.map (fun b => b.id)) := by
  refine ⟨?_, ?_, ?_, ?_⟩
  · intro s i raw herr
    refine ⟨rfl, by simp [genre_update_post, herr], ?_⟩
    simp only [genre_update_post, herr]
    simp only [ne_eq, not_true_eq_false, if_false]
    cases hf : findGenre s i with
    | none => simp [genreFindByIdAndUpdate, hf]
    | some g =>
        simp only [genreFindByIdAndUpdate, hf, List.map_map]
        congr 1
        funext x
        simp only [Function.comp_apply]
        split <;> rfl
  · intro s i sub herr
    refine ⟨rfl, by simp [author_update_post, herr], ?_⟩
    simp only [author_update_post, herr]
    simp only [ne_eq, not_true_eq_false, if_false]
    cases hf : findAuthor s i with
    | none => simp [authorFindByIdAndUpdate, hf]
    | some a =>
        simp only [authorFindByIdAndUpdate, hf, List.map_map]
        congr 1
        funext x
        simp only [Function.comp_apply]
        split <;> rfl
  · intro s i sub herr
    refine ⟨rfl, by simp [bookinstance_update_post, herr], ?_⟩
    simp only [bookinstance_update_post, herr]
    simp only [ne_eq, not_true_eq_false, if_false]
    cases hf : findBI s i with
    | none => simp [biFindByIdAndUpdate, hf]
    | some x0 =>
        simp only [biFindByIdAndUpdate, hf, List.map_map]
        congr 1
        funext x
        simp only [Function.comp_apply]
        split <;> rfl
  · intro s i sub herr
    refine ⟨rfl, ?_, ?_, ?_⟩
    · intro d hd
      refine ⟨by simp [book_update_post, herr, bookFindByIdAndUpdate, hd], ?_⟩
      simpa using List.find?_some hd
    · intro h
      simp [book_update_post, herr, bookFindByIdAndUpdate, h]
    · simp only [book_update_post, herr]
      simp only [ne_eq, not_true_eq_false, if_false]
      cases hf : findBook s i with
      | none => simp [bookFindByIdAndUpdate, hf]
      | some b =>
          simp only [bookFindByIdAndUpdate, hf, List.map_map]
          congr 1
          funext x
          simp only [Function.comp_apply]
          split <;> rfl

/-- C8 witness: a concrete in-place Genre update redirecting to the
candidate's location, and a concrete Book update redirecting to the returned
document's location. -/
theorem c8_update_in_place_witness :
    genre_update_post sBig "g1" "Poetry" =
      (Resp.redirect (genreUrl "g1"),
       (genreFindByIdAndUpdate sBig "g1" (genreCand (some "g1") "Poetry")).2) ∧
    (book_update_post sBig "b1" subEmma =
       (Resp.redirect (bookUrl bDemo.id),
        (bookFindByIdAndUpdate sBig "b1" (bookCand (some "b1") subEmma)).2) ∧
     bDemo.id = "b1") :=
  ⟨(c8_update_in_place.1 sBig "g1" "Poetry" (by decide)).2.1,
   (c8_update_in_place.2.2.2 sBig "b1" subEmma (by decide)).2.1 bDemo (by decide)⟩

/-- C9: for Book create-submit and update-submit the genre field is
normalized before validation — an entirely absent field to the empty
collection and a scalar to a one-element collection — validation is
independent of the genre field, and a valid submission with an absent genre
field persists a Book whose genre set is the (typed, never absent) empty
list, both on create and on update. -/
theorem c9_book_genre_field_normalized :
    (normalizeGenre GenreField.absent = [] ∧
     ∀ v, normalizeGenre (GenreField.one v) = [v]) ∧
    (∀ oid sub, sub.genre = GenreField.absent → (bookCand oid sub).genre = []) ∧
    (∀ oid sub v, sub.genre = GenreField.one v →
       (bookCand oid sub).genre = [escapeStr v]) ∧
    (∀ (sub : BookSubmission) (gf1 gf2 : GenreField),
       bookErrors { sub with genre := gf1 } = bookErrors { sub with genre := gf2 }) ∧
    (∀ s sub, sub.genre = GenreField.absent → bookErrors sub = [] →
       (book_create_post s sub).2.books =
         s.books ++ [bookDocOf s (bookCand none sub)] ∧
       (bookDocOf s (bookCand none sub)).genre = []) ∧
    (∀ s i sub, sub.genre = GenreField.absent → bookErrors sub = [] →
       ∀ x ∈ (book_update_post s i sub).2.books, x.id = i → x.genre = []) := by
  refine ⟨⟨rfl, fun v => rfl⟩, ?_, ?_, ?_, ?_, ?_⟩
  · intro oid sub hg
    simp [bookCand, hg, normalizeGenre]
  · intro oid sub v hg
    simp [bookCand, hg, normalizeGenre]
  · intro sub gf1 gf2
    rfl
  · intro s sub hg herr
    refine ⟨by simp [book_create_post, herr], ?_⟩
    simp [bookDocOf, bookCand, hg, normalizeGenre]
  · intro s i sub hg herr x hx hxid
    simp only [book_update_post, herr] at hx
    simp only [ne_eq, not_true_eq_false, if_false] at hx
    cases hf : findBook s i with
    | none =>
        simp only [bookFindByIdAndUpdate, hf] at hx
        have := List.find?_eq_none.mp hf x hx
        exact absurd (by simp [hxid]) this
    | some d =>
        simp only [bookFindByIdAndUpdate, hf] at hx
        rw [List.mem_map] at hx
        obtain ⟨x0, hx0, hfx⟩ := hx
        by_cases h0 : (x0.id == i) = true
        · rw [← hfx]
          simp [h0, bookCand, hg, normalizeGenre]
        · rw [← hfx] at hxid
          rw [if_neg h0] at hxid
          exact absurd (by simp [hxid] : (x0.id == i) = true) h0

def subEmmaNoGenre : BookSubmission :=
  { title := "Emma", author := "a1", summary := "A novel", isbn := "123",
    genre := GenreField.absent }

/-- C9 witness: a concrete valid Book create-submit with the genre field
entirely absent persists a Book with the empty genre list, and a concrete
update-submit leaves the updated document's genre list empty. -/
theorem c9_book_genre_field_normalized_witness :
    (bookCand none subEmmaNoGenre).genre = [] ∧
    ((book_create_post sBig subEmmaNoGenre).2.books =
       sBig.books ++ [bookDocOf sBig (bookCand none subEmmaNoGenre)] ∧
     (bookDocOf sBig (bookCand none subEmmaNoGenre)).genre = []) ∧
    (∀ x ∈ (book_update_post sBig "b1" subEmmaNoGenre).2.books,
       x.id = "b1" → x.genre = []) :=
  ⟨c9_book_genre_field_normalized.2.1 none subEmmaNoGenre (by decide),
   c9_book_genre_field_normalized.2.2.2.2.1 sBig subEmmaNoGenre (by decide) (by decide),
   c9_book_genre_field_normalized.2.2.2.2.2 sBig "b1" subEmmaNoGenre (by decide) (by decide)⟩
